import Mathlib

/-!
Verification of the workflow-generation core of the PRD2workflow backend
(`server.py`): the response normalizer, the keyword-driven fallback
synthesizer, and the retry/error control flow of `generate_workflow` and
`analyze_document` in `GeminiAIService`.

The embedding mirrors the Python source.  JSON values produced by
`json.loads` are modelled by the inductive `Json`; the `json.loads`
string-to-value parser itself is an external library and is passed in as a
function `jsonLoads : String -> Option Json` (`none` models a
`JSONDecodeError`).  The `re.search` extractions used by the source are
small enough to be modelled concretely (`rexSpan`).  Python string methods
`strip`/`replace`/`startswith`/`lower` are modelled directly over the
character list (`pyStrip`, `pyReplace`, `pyStartsWith`, `pyLower`;
`Char.toLower` agrees with `str.lower` on ASCII).
-/

namespace PRDBackend

/-- JSON values as returned by Python `json.loads`: objects are ordered
key/value lists (keys unique, as `json.loads` produces).  Numbers are
modelled as integers - every numeric literal in the relevant source and
prompts is integral. -/
inductive Json where
  | null
  | bool (b : Bool)
  | num (n : Int)
  | str (s : String)
  | arr (elems : List Json)
  | obj (fields : List (String × Json))
deriving Repr

/-- `WorkflowNode` pydantic model from `server.py`: id, type, label,
coordinates and the flattened outgoing-edge target list. -/
structure WorkflowNode where
  id : String
  type : String
  label : String
  x : Int
  y : Int
  connections : List String
deriving Repr, DecidableEq

/-- Python `dict.get` on a JSON object (keys unique, insertion order kept). -/
def jget (fields : List (String × Json)) (k : String) : Option Json :=
  (fields.find? (fun kv => kv.1 == k)).map (fun kv => kv.2)

/-- Does `needle` occur as a contiguous run starting at some suffix of `hay`? -/
def listContains (needle : List Char) : List Char → Bool
  | [] => needle.isEmpty
  | c :: t => needle.isPrefixOf (c :: t) || listContains needle t

/-- Python substring test `needle in hay`. -/
def strContains (hay needle : String) : Bool :=
  listContains needle.toList hay.toList

/-- Python truthiness of a JSON-shaped value (`if target:`). -/
def pyTruthy : Json → Bool
  | .null => false
  | .bool b => b
  | .num n => n != 0
  | .str s => !(s == "")
  | .arr l => !l.isEmpty
  | .obj l => !l.isEmpty

/-- pydantic coercion of a JSON value into a `str` field (`str` accepts
`str` as-is and stringifies numbers and bools); `none` models a
`ValidationError` escaping the node construction. -/
def pyStrField : Json → Option String
  | .str s => some s
  | .num n => some (toString n)
  | .bool b => some (if b then "True" else "False")
  | _ => none

/-- pydantic coercion of a JSON value into an `int` field; `none` models a
`ValidationError`. -/
def pyIntField : Json → Option Int
  | .num n => some n
  | .bool b => some (if b then 1 else 0)
  | _ => none

/-- Python iteration (`for x in v`): lists yield their elements, dicts
their keys, strings their one-character substrings; iterating any other
value raises `TypeError` (`none`). -/
def pyIter : Json → Option (List Json)
  | .arr l => some l
  | .obj kvs => some (kvs.map (fun kv => Json.str kv.1))
  | .str s => some (s.toList.map (fun c => Json.str (String.mk [c])))
  | _ => none

/-- Python `str(v)` inside an f-string. The list/dict reprs are not needed
by any claim and are collapsed to a placeholder. -/
def pyFormat : Json → String
  | .str s => s
  | .num n => toString n
  | .bool b => if b then "True" else "False"
  | .null => "None"
  | .arr _ => "<list>"
  | .obj _ => "<dict>"

/-- Python `text[:200]`. -/
def take200 (s : String) : String :=
  String.mk (s.toList.take 200)

/-- The whitespace set stripped by Python `str.strip()`. -/
def pyWhitespace (c : Char) : Bool :=
  c == ' ' || c == '\t' || c == '\n' || c == '\r' || c == '\x0b' || c == '\x0c'

/-- Python `str.strip()`. -/
def pyStrip (s : String) : String :=
  String.mk (((s.toList.dropWhile pyWhitespace).reverse.dropWhile pyWhitespace).reverse)

/-- Python `str.startswith(p)`. -/
def pyStartsWith (s p : String) : Bool :=
  p.toList.isPrefixOf s.toList

/-- Replace every occurrence of `pat` (left to right, non-overlapping),
as Python `str.replace` does. -/
def replaceList (pat rep : List Char) : List Char → List Char
  | [] => []
  | c :: t =>
      if pat.isPrefixOf (c :: t) then
        rep ++ replaceList pat rep (t.drop (pat.length - 1))
      else
        c :: replaceList pat rep t
termination_by l => l.length
decreasing_by
  · simp only [List.length_drop, List.length_cons]
    omega
  · simp

/-- Python `str.replace(pat, rep)`. -/
def pyReplace (s pat rep : String) : String :=
  String.mk (replaceList pat.toList rep.toList s.toList)

/-- Python `str.lower()` (the keywords and tests here are ASCII). -/
def pyLower (s : String) : String :=
  String.mk (s.toList.map Char.toLower)

/-! ## Fallback synthesizer (`_create_smart_fallback_workflow`)

The nine hand-authored graph literals, transcribed from the source. -/

def ecommerceJourney : List WorkflowNode := [
  ⟨"start", "start", "User Opens App", 200, 100, ["browse"]⟩,
  ⟨"browse", "process", "Browse Products", 500, 100, ["select"]⟩,
  ⟨"select", "process", "Select Items", 800, 100, ["cart"]⟩,
  ⟨"cart", "process", "Add to Cart", 1100, 100, ["auth_check"]⟩,
  ⟨"auth_check", "decision", "User Logged In?", 1400, 100, ["payment", "login"]⟩,
  ⟨"login", "process", "Login/Register", 1400, 300, ["payment"]⟩,
  ⟨"payment", "process", "Process Payment", 1700, 100, ["success_check"]⟩,
  ⟨"success_check", "decision", "Payment Success?", 2000, 100, ["confirmation", "retry"]⟩,
  ⟨"retry", "process", "Retry Payment", 2000, 300, ["payment"]⟩,
  ⟨"confirmation", "process", "Order Confirmation", 2300, 100, ["end"]⟩,
  ⟨"end", "end", "Order Complete", 2600, 100, []⟩]

def socialJourney : List WorkflowNode := [
  ⟨"start", "start", "User Login", 200, 100, ["dashboard"]⟩,
  ⟨"dashboard", "process", "View Dashboard", 500, 100, ["create"]⟩,
  ⟨"create", "process", "Create Post", 800, 100, ["content_check"]⟩,
  ⟨"content_check", "decision", "Content Valid?", 1100, 100, ["schedule", "edit"]⟩,
  ⟨"edit", "process", "Edit Content", 1100, 300, ["content_check"]⟩,
  ⟨"schedule", "decision", "Schedule or Publish?", 1400, 100, ["publish", "schedule_time"]⟩,
  ⟨"schedule_time", "process", "Set Schedule Time", 1400, 50, ["publish"]⟩,
  ⟨"publish", "process", "Publish Content", 1700, 100, ["end"]⟩,
  ⟨"end", "end", "Post Published", 2000, 100, []⟩]

def genericJourney : List WorkflowNode := [
  ⟨"start", "start", "User Entry", 200, 100, ["discover"]⟩,
  ⟨"discover", "process", "Discover Features", 500, 100, ["valid_check"]⟩,
  ⟨"valid_check", "decision", "Valid Input?", 800, 100, ["interact", "error"]⟩,
  ⟨"error", "process", "Show Error Message", 800, 300, ["discover"]⟩,
  ⟨"interact", "process", "User Interaction", 1100, 100, ["complete"]⟩,
  ⟨"complete", "process", "Complete Task", 1400, 100, ["end"]⟩,
  ⟨"end", "end", "Task Complete", 1700, 100, []⟩]

def supportBlueprint : List WorkflowNode := [
  ⟨"start", "start", "Service Request", 200, 100, ["validate"]⟩,
  ⟨"validate", "process", "Validate Request", 500, 100, ["valid_check"]⟩,
  ⟨"valid_check", "decision", "Request Valid?", 800, 100, ["route", "reject"]⟩,
  ⟨"reject", "process", "Reject Request", 800, 300, ["notify_rejection"]⟩,
  ⟨"notify_rejection", "end", "Rejection Sent", 1100, 300, []⟩,
  ⟨"route", "process", "Route to Team", 1100, 100, ["priority"]⟩,
  ⟨"priority", "decision", "High Priority?", 1400, 100, ["escalate", "resolve"]⟩,
  ⟨"escalate", "process", "Escalate to Manager", 1400, 50, ["resolve"]⟩,
  ⟨"resolve", "process", "Resolve Issue", 1700, 100, ["quality_check"]⟩,
  ⟨"quality_check", "decision", "Quality Approved?", 2000, 100, ["notify", "rework"]⟩,
  ⟨"rework", "process", "Rework Solution", 2000, 300, ["resolve"]⟩,
  ⟨"notify", "process", "Notify Customer", 2300, 100, ["end"]⟩,
  ⟨"end", "end", "Service Complete", 2600, 100, []⟩]

def genericBlueprint : List WorkflowNode := [
  ⟨"start", "start", "Service Trigger", 200, 100, ["validate"]⟩,
  ⟨"validate", "process", "Input Validation", 500, 100, ["valid_check"]⟩,
  ⟨"valid_check", "decision", "Input Valid?", 800, 100, ["process", "error"]⟩,
  ⟨"error", "end", "Error Response", 800, 300, []⟩,
  ⟨"process", "process", "Core Processing", 1100, 100, ["quality"]⟩,
  ⟨"quality", "decision", "Quality Check Pass?", 1400, 100, ["deliver", "retry"]⟩,
  ⟨"retry", "process", "Retry Processing", 1400, 300, ["process"]⟩,
  ⟨"deliver", "process", "Service Delivery", 1700, 100, ["end"]⟩,
  ⟨"end", "end", "Service Complete", 2000, 100, []⟩]

def apiFeatureFlow : List WorkflowNode := [
  ⟨"start", "start", "API Request", 200, 100, ["auth"]⟩,
  ⟨"auth", "process", "Authentication", 500, 100, ["auth_check"]⟩,
  ⟨"auth_check", "decision", "Auth Valid?", 800, 100, ["validate", "unauthorized"]⟩,
  ⟨"unauthorized", "end", "Unauthorized", 800, 300, []⟩,
  ⟨"validate", "process", "Input Validation", 1100, 100, ["valid_check"]⟩,
  ⟨"valid_check", "decision", "Valid Input?", 1400, 100, ["process", "bad_request"]⟩,
  ⟨"bad_request", "end", "Bad Request", 1400, 300, []⟩,
  ⟨"process", "process", "Business Logic", 1700, 100, ["integrate"]⟩,
  ⟨"integrate", "process", "External Integration", 2000, 100, ["success_check"]⟩,
  ⟨"success_check", "decision", "Integration Success?", 2300, 100, ["response", "error_response"]⟩,
  ⟨"error_response", "end", "Error Response", 2300, 300, []⟩,
  ⟨"response", "end", "Success Response", 2600, 100, []⟩]

def genericFeatureFlow : List WorkflowNode := [
  ⟨"start", "start", "Feature Trigger", 200, 100, ["input"]⟩,
  ⟨"input", "process", "Input Processing", 500, 100, ["validation"]⟩,
  ⟨"validation", "decision", "Input Valid?", 800, 100, ["logic", "error"]⟩,
  ⟨"error", "end", "Validation Error", 800, 300, []⟩,
  ⟨"logic", "process", "Core Logic", 1100, 100, ["decide"]⟩,
  ⟨"decide", "decision", "Business Rules Met?", 1400, 100, ["output", "alternative"]⟩,
  ⟨"alternative", "process", "Alternative Path", 1400, 300, ["output"]⟩,
  ⟨"output", "process", "Generate Output", 1700, 100, ["end"]⟩,
  ⟨"end", "end", "Feature Complete", 2000, 100, []⟩]

def defaultFallback : List WorkflowNode := [
  ⟨"start", "start", "Start", 200, 100, ["process1"]⟩,
  ⟨"process1", "process", "Initial Process", 500, 100, ["decision1"]⟩,
  ⟨"decision1", "decision", "Continue?", 800, 100, ["process2", "end_early"]⟩,
  ⟨"end_early", "end", "Early Exit", 800, 300, []⟩,
  ⟨"process2", "process", "Final Process", 1100, 100, ["end"]⟩,
  ⟨"end", "end", "Complete", 1400, 100, []⟩]

/-- The keyword decision tree of `_create_smart_fallback_workflow`, applied
to the already lower-cased document text (`content_lower` in the source). -/
def smartFallbackCore (contentLower wt : String) : List WorkflowNode :=
  if wt = "user_journey" then
    if strContains contentLower "e-commerce" || strContains contentLower "shopping"
        || strContains contentLower "cart" then
      ecommerceJourney
    else if strContains contentLower "social" || strContains contentLower "post"
        || strContains contentLower "media" then
      socialJourney
    else
      genericJourney
  else if wt = "service_blueprint" then
    if strContains contentLower "support" || strContains contentLower "ticket"
        || strContains contentLower "customer" then
      supportBlueprint
    else
      genericBlueprint
  else if wt = "feature_flow" then
    if strContains contentLower "api" || strContains contentLower "integration" then
      apiFeatureFlow
    else
      genericFeatureFlow
  else
    defaultFallback

/-- `_create_smart_fallback_workflow(content, workflow_type)`: lower-cases
the document text (`content_lower = content.lower()`) and dispatches on
workflow kind and keyword membership. -/
def createSmartFallbackWorkflow (content wt : String) : List WorkflowNode :=
  smartFallbackCore (pyLower content) wt

/-- Number of nodes of a given `type` kind in a node list. -/
def countType (ns : List WorkflowNode) (t : String) : Nat :=
  (ns.filter (fun n => n.type == t)).length

/-- Every connection target resolves to a node id of the same list. -/
def connectionClosed (ns : List WorkflowNode) : Bool :=
  ns.all (fun n => n.connections.all (fun t => ns.any (fun m => m.id == t)))

/-! ## Response normalizer (inside `generate_workflow`) -/

/-- One entry of a node's `connections` list, as in the source loop:
a dict contributes `conn.get('target','')` when truthy, a bare string
contributes itself, anything else is skipped.  `none` models a pydantic
`ValidationError` from a truthy but non-stringifiable target. -/
def connEntry : Json → Option (List String)
  | .obj kvs =>
      let target := (jget kvs "target").getD (.str "")
      if pyTruthy target then (pyStrField target).map (fun t => [t]) else some []
  | .str s => some [s]
  | _ => some []

/-- The `for conn in connections` loop body, accumulating targets in
order; `none` models an exception from an entry. -/
def connLoop : List Json → Option (List String)
  | [] => some []
  | e :: rest => do
      let t ← connEntry e
      let ts ← connLoop rest
      pure (t ++ ts)

/-- The connection loop over `node_data.get('connections', [])`; `none`
models a Python exception (`TypeError` from iterating a non-iterable
value, or a `ValidationError` from an entry). -/
def normalizeConnections (kvs : List (String × Json)) : Option (List String) :=
  (pyIter ((jget kvs "connections").getD (.arr []))).bind connLoop

/-- Construction of one `WorkflowNode` from a parsed node object at
enumeration index `i`, with the source's per-field defaults.  `xBase` and
`xStep` are `200`/`300` on the strict-parse path and `100`/`150` on the
regex-extraction path. -/
def buildNode (xBase xStep : Int) (i : Nat) (kvs : List (String × Json)) :
    Option WorkflowNode := do
  let conns ← normalizeConnections kvs
  let nid ← pyStrField ((jget kvs "id").getD (.str ("node_" ++ toString i)))
  let nty ← pyStrField ((jget kvs "type").getD (.str "process"))
  let nlbl ← pyStrField ((jget kvs "label").getD (.str ("Step " ++ toString (i + 1))))
  let nx ← pyIntField ((jget kvs "x").getD (.num (xBase + xStep * (i : Int))))
  let ny ← pyIntField ((jget kvs "y").getD (.num 100))
  pure ⟨nid, nty, nlbl, nx, ny, conns⟩

/-- `for i, node_data in enumerate(workflow_data)`: dict elements become
nodes, other elements are skipped (the index still advances); `none`
models a Python exception escaping the loop. -/
def normalizeNodes (xBase xStep : Int) : List (Nat × Json) → Option (List WorkflowNode)
  | [] => some []
  | (i, .obj kvs) :: rest => do
      let n ← buildNode xBase xStep i kvs
      let ns ← normalizeNodes xBase xStep rest
      pure (n :: ns)
  | (_, _) :: rest => normalizeNodes xBase xStep rest

/-- Normalization of a parsed JSON value: iterate it and build nodes. -/
def normalizeArr (xBase xStep : Int) (j : Json) : Option (List WorkflowNode) :=
  (pyIter j).bind (fun l => normalizeNodes xBase xStep l.enum)

/-- The wrapper unwrapping of the strict-parse path: a dict with a
`workflow` (or else `nodes`) key is replaced by that value. -/
def unwrapWorkflow : Json → Json
  | .obj kvs =>
      match jget kvs "workflow" with
      | some v => v
      | none =>
          match jget kvs "nodes" with
          | some v => v
          | none => .obj kvs
  | j => j

/-- Strict-parse-path normalization (`x` default `200 + i*300`). -/
def normalizePrimary (j : Json) : Option (List WorkflowNode) :=
  normalizeArr 200 300 (unwrapWorkflow j)

/-- Regex-extraction-path normalization (`x` default `100 + i*150`),
with no wrapper unwrapping. -/
def normalizeSecondary (j : Json) : Option (List WorkflowNode) :=
  normalizeArr 100 150 j

/-- The markdown code-fence cleanup applied to the AI text before the
strict parse. -/
def fenceStrip (content : String) : String :=
  let c := pyStrip content
  if pyStartsWith c "```json" then
    pyStrip (pyReplace (pyReplace c "```json" "") "```" "")
  else if pyStartsWith c "```" then
    pyStrip (pyReplace c "```" "")
  else
    c

/-- `re.search(r'<open>.*<close>', s, re.DOTALL)` for single-character
anchors: the match runs from the first `openc` that has a `closec` after
it up to the last `closec` of the whole string (greedy `.*`). -/
def rexSpan (openc closec : Char) (s : String) : Option String :=
  let cs := s.toList
  match cs.findIdx? (fun c => c == openc),
      (cs.reverse.findIdx? (fun c => c == closec)).map (fun k => cs.length - 1 - k) with
  | some i, some j =>
      if i < j then some (String.mk ((cs.drop i).take (j - i + 1))) else none
  | _, _ => none

/-- `re.search(r'\[.*\]', content, re.DOTALL)` of the workflow reparse. -/
def rexExtractArr (s : String) : Option String :=
  rexSpan '[' ']' s

/-- `re.search` of the analysis reparse, seeking a brace-delimited run. -/
def rexExtractObj (s : String) : Option String :=
  rexSpan '\x7b' '\x7d' s

/-! ## Orchestrator control flow -/

/-- A Python exception value as far as the control flow observes it:
an `HTTPException` (status and detail) or any other exception with its
`str()` rendering.  `str()` of an `HTTPException` is
`"<status_code>: <detail>"` (starlette). -/
inductive PyExc where
  | http (status : Nat) (detail : String)
  | other (msg : String)
deriving Repr, DecidableEq

def strOfExc : PyExc → String
  | .http s d => toString s ++ ": " ++ d
  | .other m => m

/-- One upstream HTTP response, as seen by one attempt of the retry loop
(status code and body text).  Timeouts and socket errors are outside this
model; every claim here concerns runs in which each attempt receives an
HTTP response. -/
structure Attempt where
  status : Nat
  text : String
deriving Repr, DecidableEq

/-- `self.max_retries` of `GeminiAIService`. -/
def maxRetries : Nat := 3

/-- Navigation `result['candidates'][0]['content']['parts'][0]['text']`
guarded by `if 'candidates' in result and len(result['candidates']) > 0`.
`.ok none` is the guard failing (the no-content branch); `.error` is a
Python exception escaping the navigation; `.ok (some s)` is the extracted
candidate text. -/
def extractContent (env : Json) : Except PyExc (Option String) :=
  match env with
  | .obj kvs =>
      match jget kvs "candidates" with
      | none => .ok none
      | some cand =>
          match cand with
          | .arr l =>
              match l with
              | [] => .ok none
              | c0 :: _ =>
                  match c0 with
                  | .obj ckvs =>
                      match jget ckvs "content" with
                      | none => .error (.other "KeyError")
                      | some (.obj cokvs) =>
                          match jget cokvs "parts" with
                          | none => .error (.other "KeyError")
                          | some (.arr ps) =>
                              match ps with
                              | [] => .error (.other "IndexError")
                              | p0 :: _ =>
                                  match p0 with
                                  | .obj pkvs =>
                                      match jget pkvs "text" with
                                      | none => .error (.other "KeyError")
                                      | some (.str s) => .ok (some s)
                                      | some _ => .error (.other "AttributeError")
                                  | _ => .error (.other "TypeError")
                          | some _ => .error (.other "TypeError")
                      | some _ => .error (.other "TypeError")
                  | _ => .error (.other "TypeError")
          | .obj okvs => if okvs.isEmpty then .ok none else .error (.other "TypeError")
          | .str s => if s.isEmpty then .ok none else .error (.other "TypeError")
          | _ => .error (.other "TypeError")
  | .arr l =>
      if l.any (fun e => match e with | .str s => s == "candidates" | _ => false) then
        .error (.other "TypeError")
      else .ok none
  | .str s =>
      if strContains s "candidates" then .error (.other "TypeError") else .ok none
  | _ => .error (.other "TypeError")

/-- Outcome of one iteration body of the `generate_workflow` retry loop:
a returned node list, a caught exception (everything raised inside the
`try` lands in the blanket `except Exception`), or the `continue` of a
non-final 503. -/
inductive TryOut where
  | ret (ns : List WorkflowNode)
  | caught (e : PyExc)
  | cont
deriving Repr

/-- The 200-response content handling of `generate_workflow`: fence-strip
and strict-parse, else regex-extract and reparse, else (or on a too-small
node list) fall back to the smart fallback synthesizer.  A non-
`JSONDecodeError` exception from normalization escapes (`.exc`). -/
def processContent (jsonLoads : String → Option Json) (doc wt content : String) :
    TryOut :=
  match jsonLoads (fenceStrip content) with
  | some j =>
      match normalizePrimary j with
      | none => .caught (.other "TypeError")
      | some ns =>
          if 2 < ns.length then .ret ns
          else .ret (createSmartFallbackWorkflow doc wt)
  | none =>
      match rexExtractArr content with
      | none => .ret (createSmartFallbackWorkflow doc wt)
      | some sub =>
          match jsonLoads sub with
          | none => .ret (createSmartFallbackWorkflow doc wt)
          | some j =>
              match normalizeSecondary j with
              | none => .caught (.other "TypeError")
              | some ns =>
                  if 2 < ns.length then .ret ns
                  else .ret (createSmartFallbackWorkflow doc wt)

def overloadedGenDetail : String :=
  "AI service temporarily overloaded. Please try generating workflow again in a moment."

/-- One iteration body of the `generate_workflow` loop at index `attempt`:
dispatch on the response status (200 / 503 / anything else). -/
def genAttemptBody (jsonLoads : String → Option Json) (doc wt : String)
    (a : Attempt) (attempt : Nat) : TryOut :=
  if a.status = 200 then
    match jsonLoads a.text with
    | none => .caught (.other "JSONDecodeError")
    | some env =>
        match extractContent env with
        | .error e => .caught e
        | .ok none => .caught (.http 500 "No workflow generated")
        | .ok (some content) => processContent jsonLoads doc wt content
  else if a.status = 503 then
    if attempt < maxRetries - 1 then .cont
    else .caught (.http 503 overloadedGenDetail)
  else
    .caught (.http a.status ("Workflow generation failed: " ++ take200 a.text))

/-- What `generate_workflow` hands to its caller: a node list or a raised
`HTTPException`. -/
inductive GenOutcome where
  | nodes (ns : List WorkflowNode)
  | raised (status : Nat) (detail : String)
deriving Repr, DecidableEq

def GenOutcome.raisedStatus : GenOutcome → Option Nat
  | .nodes _ => none
  | .raised s _ => some s

/-- The `for attempt in range(self.max_retries)` loop of
`generate_workflow`.  A caught exception retries on non-final attempts and
is re-raised on the final one as status 500 wrapping `str(e)`.  `fuel`
counts the remaining iterations (the zero case is the vacuous fall-off of
the Python loop, which cannot be reached from `generateWorkflow`). -/
def genLoop (jsonLoads : String → Option Json) (doc wt : String)
    (resp : Nat → Attempt) : Nat → Nat → GenOutcome
  | _, 0 => .raised 500 "loop exhausted"
  | attempt, fuel + 1 =>
      match genAttemptBody jsonLoads doc wt (resp attempt) attempt with
      | .ret ns => .nodes ns
      | .cont => genLoop jsonLoads doc wt resp (attempt + 1) fuel
      | .caught e =>
          if attempt < maxRetries - 1 then
            genLoop jsonLoads doc wt resp (attempt + 1) fuel
          else
            .raised 500 ("Workflow generation failed: " ++ strOfExc e)

/-- `GeminiAIService.generate_workflow(document_content, workflow_type)`,
as a function of the abstract `json.loads` and of the upstream response
each attempt receives. -/
def generateWorkflow (jsonLoads : String → Option Json) (doc wt : String)
    (resp : Nat → Attempt) : GenOutcome :=
  genLoop jsonLoads doc wt resp 0 maxRetries

/-! ## Analysis orchestrator (`analyze_document`) -/

/-- The 200-response content handling of `analyze_document`: fence-strip
and strict-parse; on failure regex-extract a brace-delimited run and
reparse; on total failure wrap the raw candidate text under the
`raw_analysis` sentinel key. -/
def analyzeContentParse (jsonLoads : String → Option Json) (content : String) : Json :=
  match jsonLoads (fenceStrip content) with
  | some j => j
  | none =>
      match rexExtractObj content with
      | none => .obj [("raw_analysis", .str content)]
      | some sub =>
          match jsonLoads sub with
          | some j => j
          | none => .obj [("raw_analysis", .str content)]

def overloadedAnalyzeDetail : String :=
  "Gemini AI service is currently overloaded. This is a temporary issue with high demand. Please try again in a few minutes. Our system will automatically retry failed requests."

def rateLimitedDetail : String :=
  "Rate limit exceeded. Please wait a moment before trying again."

/-- Outcome of one iteration body of the `analyze_document` loop. -/
inductive TryOutA where
  | res (j : Json)
  | caught (e : PyExc)
  | cont
deriving Repr

/-- One iteration body of the `analyze_document` loop at index `attempt`:
dispatch on the response status (200 / 503 / 429 / anything else); the
final branch parses the error envelope for `error.message`. -/
def analyzeAttemptBody (jsonLoads : String → Option Json) (a : Attempt)
    (attempt : Nat) : TryOutA :=
  if a.status = 200 then
    match jsonLoads a.text with
    | none => .caught (.other "JSONDecodeError")
    | some env =>
        match extractContent env with
        | .error e => .caught e
        | .ok none => .caught (.http 500 "No content generated by Gemini")
        | .ok (some content) => .res (analyzeContentParse jsonLoads content)
  else if a.status = 503 then
    if attempt < maxRetries - 1 then .cont
    else .caught (.http 503 overloadedAnalyzeDetail)
  else if a.status = 429 then
    if attempt < maxRetries - 1 then .cont
    else .caught (.http 429 rateLimitedDetail)
  else
    match jsonLoads a.text with
    | none => .caught (.http a.status ("Gemini API error: " ++ take200 a.text))
    | some (.obj kvs) =>
        match (jget kvs "error").getD (.obj []) with
        | .obj ekvs =>
            .caught (.http a.status ("Gemini API error: " ++
              pyFormat ((jget ekvs "message").getD (.str "Unknown error"))))
        | _ => .caught (.other "AttributeError")
    | some _ => .caught (.other "AttributeError")

/-- What `analyze_document` hands to its caller. -/
inductive AnalyzeOutcome where
  | result (j : Json)
  | raised (status : Nat) (detail : String)
deriving Repr

/-- The retry loop of `analyze_document`.  Unlike `generate_workflow`, a
caught exception is never retried: the blanket `except Exception` re-raises
immediately as status 500 wrapping `str(e)`. -/
def analyzeLoop (jsonLoads : String → Option Json) (resp : Nat → Attempt) :
    Nat → Nat → AnalyzeOutcome
  | _, 0 => .raised 500 "loop exhausted"
  | attempt, fuel + 1 =>
      match analyzeAttemptBody jsonLoads (resp attempt) attempt with
      | .res j => .result j
      | .cont => analyzeLoop jsonLoads resp (attempt + 1) fuel
      | .caught e =>
          .raised 500 ("An unexpected error occurred during analysis: " ++ strOfExc e)

/-- `GeminiAIService.analyze_document(document_content, analysis_type)`,
restricted to the retry/parse logic (the prompt construction does not
affect any claim). -/
def analyzeDocument (jsonLoads : String → Option Json) (resp : Nat → Attempt) :
    AnalyzeOutcome :=
  analyzeLoop jsonLoads resp 0 maxRetries

/-! ## Structured inputs for the normalizer claims

A well-formed AI node object: all five scalar fields present with their
natural types, and every connection entry either a `{"target": ..,
"label": ..}` dict or a bare target string. -/

/-- One well-formed connection entry of an AI node object. -/
inductive ConnEntry where
  | labeled (target lbl : String)
  | bare (s : String)
deriving Repr, DecidableEq

def ConnEntry.toJson : ConnEntry → Json
  | .labeled t l => .obj [("target", .str t), ("label", .str l)]
  | .bare s => .str s

/-- What the source's connection loop keeps of one well-formed entry:
a dict's target when truthy (non-empty), a bare string always. -/
def ConnEntry.flat : ConnEntry → List String
  | .labeled t _ => if t = "" then [] else [t]
  | .bare s => [s]

/-- A well-formed AI node object carrying id, type, label, x, y and a
connections list. -/
structure InNode where
  id : String
  ty : String
  lbl : String
  x : Int
  y : Int
  conns : List ConnEntry
deriving Repr, DecidableEq

def InNode.fields (n : InNode) : List (String × Json) :=
  [("id", .str n.id), ("type", .str n.ty), ("label", .str n.lbl),
   ("x", .num n.x), ("y", .num n.y),
   ("connections", .arr (n.conns.map ConnEntry.toJson))]

def InNode.toJson (n : InNode) : Json :=
  .obj n.fields

/-- The `WorkflowNode` the source builds from a well-formed node object. -/
def InNode.expected (n : InNode) : WorkflowNode :=
  ⟨n.id, n.ty, n.lbl, n.x, n.y, (n.conns.map ConnEntry.flat).flatten⟩

/-- The Gemini 200-response envelope carrying one candidate text, as
navigated by `result['candidates'][0]['content']['parts'][0]['text']`. -/
def mkEnvelope (c : String) : Json :=
  .obj [("candidates",
    .arr [.obj [("content", .obj [("parts", .arr [.obj [("text", .str c)]])])]])]

/-! ## Helper lemmas -/

/-- The fallback synthesizer always emits one of its eight graph literals. -/
theorem smartFallbackCore_cases (cl wt : String) :
    smartFallbackCore cl wt = ecommerceJourney ∨
    smartFallbackCore cl wt = socialJourney ∨
    smartFallbackCore cl wt = genericJourney ∨
    smartFallbackCore cl wt = supportBlueprint ∨
    smartFallbackCore cl wt = genericBlueprint ∨
    smartFallbackCore cl wt = apiFeatureFlow ∨
    smartFallbackCore cl wt = genericFeatureFlow ∨
    smartFallbackCore cl wt = defaultFallback := by
  unfold smartFallbackCore
  split_ifs <;> simp

/-- Size and boundary-marker statistics common to every fallback graph. -/
theorem fallback_stats (c wt : String) :
    5 ≤ (createSmartFallbackWorkflow c wt).length ∧
    countType (createSmartFallbackWorkflow c wt) "start" = 1 ∧
    1 ≤ countType (createSmartFallbackWorkflow c wt) "end" := by
  have h := smartFallbackCore_cases (pyLower c) wt
  unfold createSmartFallbackWorkflow
  rcases h with h | h | h | h | h | h | h | h <;> rw [h] <;>
    exact ⟨by decide, by decide, by decide⟩

theorem fallback_big (c wt : String) :
    2 < (createSmartFallbackWorkflow c wt).length := by
  have h := (fallback_stats c wt).1
  omega

/-- A node list returned by the 200-content handler has more than 2 nodes. -/
theorem processContent_ret_big (jl : String → Option Json) (doc wt c : String)
    (ns : List WorkflowNode) (h : processContent jl doc wt c = .ret ns) :
    2 < ns.length := by
  unfold processContent at h
  split at h
  · split at h
    · exact absurd h (by simp)
    · split at h
      · cases h
        assumption
      · cases h
        exact fallback_big doc wt
  · split at h
    · cases h
      exact fallback_big doc wt
    · split at h
      · cases h
        exact fallback_big doc wt
      · split at h
        · exact absurd h (by simp)
        · split at h
          · cases h
            assumption
          · cases h
            exact fallback_big doc wt

/-- A node list returned by one loop-body iteration has more than 2 nodes. -/
theorem genAttemptBody_ret_big (jl : String → Option Json) (doc wt : String)
    (a : Attempt) (attempt : Nat) (ns : List WorkflowNode)
    (h : genAttemptBody jl doc wt a attempt = .ret ns) : 2 < ns.length := by
  unfold genAttemptBody at h
  split_ifs at h
  · split at h
    · exact absurd h (by simp)
    · split at h
      · exact absurd h (by simp)
      · exact absurd h (by simp)
      · exact processContent_ret_big jl doc wt _ ns h

/-- A node list coming out of the retry loop has more than 2 nodes. -/
theorem genLoop_nodes_big (jl : String → Option Json) (doc wt : String)
    (resp : Nat → Attempt) :
    ∀ fuel attempt ns, genLoop jl doc wt resp attempt fuel = .nodes ns →
      2 < ns.length := by
  intro fuel
  induction fuel with
  | zero =>
      intro attempt ns h
      exact absurd h (by simp [genLoop])
  | succ n ih =>
      intro attempt ns h
      unfold genLoop at h
      split at h
      · rename_i heq
        cases h
        exact genAttemptBody_ret_big jl doc wt _ _ _ heq
      · exact ih _ _ h
      · split_ifs at h
        exact ih _ _ h

/-- The connection loop keeps exactly `ConnEntry.flat` of a well-formed
entry. -/
theorem connEntry_toJson (e : ConnEntry) : connEntry e.toJson = some e.flat := by
  cases e with
  | labeled t l =>
      show connEntry (.obj [("target", .str t), ("label", .str l)]) = _
      unfold connEntry
      by_cases ht : t = ""
      · simp [jget, pyTruthy, ConnEntry.flat, ht]
      · simp [jget, pyTruthy, pyStrField, ConnEntry.flat, ht]
  | bare s => rfl

theorem connLoop_structured (es : List ConnEntry) :
    connLoop (es.map ConnEntry.toJson) = some (es.map ConnEntry.flat).flatten := by
  induction es with
  | nil => rfl
  | cons e t ih => simp [connLoop, connEntry_toJson, ih]

theorem normalizeConnections_fields (n : InNode) :
    normalizeConnections n.fields = some (n.conns.map ConnEntry.flat).flatten := by
  unfold normalizeConnections
  have hc : jget n.fields "connections" = some (.arr (n.conns.map ConnEntry.toJson)) := rfl
  rw [hc]
  show connLoop (n.conns.map ConnEntry.toJson) = _
  exact connLoop_structured n.conns

/-- A well-formed node object builds exactly its expected `WorkflowNode`
(no defaults fire). -/
theorem buildNode_fields (xB xS : Int) (i : Nat) (n : InNode) :
    buildNode xB xS i n.fields = some n.expected := by
  unfold buildNode
  rw [normalizeConnections_fields]
  rfl

/-- The enumerate loop over well-formed node objects, from any index. -/
theorem normalizeNodes_structured (xB xS : Int) (l : List InNode) :
    ∀ k, normalizeNodes xB xS (List.enumFrom k (l.map InNode.toJson)) =
      some (l.map InNode.expected) := by
  induction l with
  | nil => intro k; rfl
  | cons n t ih =>
      intro k
      show normalizeNodes xB xS ((k, .obj n.fields) :: List.enumFrom (k + 1) (t.map InNode.toJson)) = _
      unfold normalizeNodes
      rw [buildNode_fields, ih (k + 1)]
      rfl

/-- Strict-path normalization of a well-formed array input. -/
theorem normalizePrimary_structured (l : List InNode) :
    normalizePrimary (.arr (l.map InNode.toJson)) = some (l.map InNode.expected) := by
  unfold normalizePrimary normalizeArr unwrapWorkflow pyIter
  exact normalizeNodes_structured 200 300 l 0

/-! ## Concrete fixtures -/

/-- `json.loads` double: one envelope whose candidate text is unparseable
garbage; every other string (including `"garbage"` itself and any regex
extract) fails to parse. -/
def jlGarbage : String → Option Json :=
  fun s => if s = "ENV" then some (mkEnvelope "garbage") else none

def respOk200 : Nat → Attempt := fun _ => ⟨200, "ENV"⟩

def resp503 : Nat → Attempt := fun _ => ⟨503, ""⟩

/-- First attempt gets a 400, later attempts a parseable 200 envelope. -/
def respRetryThenOk : Nat → Attempt :=
  fun i => if i = 0 then ⟨400, "bad"⟩ else ⟨200, "ENV"⟩

/-- A candidate text parsing to three plain `process` nodes (no `start`,
no `end`). -/
def threeProcessArr : Json :=
  .arr [
    .obj [("id", .str "a"), ("type", .str "process"), ("label", .str "A"),
          ("x", .num 1), ("y", .num 2), ("connections", .arr [.str "b"])],
    .obj [("id", .str "b"), ("type", .str "process"), ("label", .str "B"),
          ("x", .num 3), ("y", .num 4), ("connections", .arr [.str "c"])],
    .obj [("id", .str "c"), ("type", .str "process"), ("label", .str "C"),
          ("x", .num 5), ("y", .num 6), ("connections", .arr [])]]

def threeProcessNodes : List WorkflowNode :=
  [⟨"a", "process", "A", 1, 2, ["b"]⟩,
   ⟨"b", "process", "B", 3, 4, ["c"]⟩,
   ⟨"c", "process", "C", 5, 6, []⟩]

def jlThreeProcess : String → Option Json :=
  fun s =>
    if s = "E3" then some (mkEnvelope "N3")
    else if s = "N3" then some threeProcessArr
    else none

def respOkE3 : Nat → Attempt := fun _ => ⟨200, "E3"⟩

/-- A candidate parsing to only two nodes (too small to accept). -/
def twoNodeArr : Json :=
  .arr [
    .obj [("id", .str "s"), ("type", .str "start"), ("label", .str "S"),
          ("x", .num 1), ("y", .num 2), ("connections", .arr [.str "e"])],
    .obj [("id", .str "e"), ("type", .str "end"), ("label", .str "E"),
          ("x", .num 3), ("y", .num 4), ("connections", .arr [])]]

def twoNodes : List WorkflowNode :=
  [⟨"s", "start", "S", 1, 2, ["e"]⟩, ⟨"e", "end", "E", 3, 4, []⟩]

/-- Shared helper: whenever the first attempt gets a 200 whose candidate
text fails the strict parse and whose bracketed-substring reparse fails or
yields at most 2 nodes, `generate_workflow` returns the fallback graph. -/
theorem gen_unusable_fallback (jl : String → Option Json)
    (doc wt t c : String) (env : Json) (resp : Nat → Attempt)
    (hr : resp 0 = ⟨200, t⟩)
    (henv : jl t = some env)
    (hex : extractContent env = .ok (some c))
    (hstrict : jl (fenceStrip c) = none)
    (hsec : ∀ sub j, rexExtractArr c = some sub → jl sub = some j →
        ∃ ns, normalizeSecondary j = some ns ∧ ns.length ≤ 2) :
    generateWorkflow jl doc wt resp = .nodes (createSmartFallbackWorkflow doc wt) := by
  have hbody : genAttemptBody jl doc wt (resp 0) 0 =
      TryOut.ret (createSmartFallbackWorkflow doc wt) := by
    rw [hr]
    show genAttemptBody jl doc wt ⟨200, t⟩ 0 = _
    unfold genAttemptBody processContent
    cases hrex : rexExtractArr c with
    | none => simp [henv, hex, hstrict, hrex]
    | some sub =>
        cases hsub : jl sub with
        | none => simp [henv, hex, hstrict, hrex, hsub]
        | some j =>
            obtain ⟨ns, hn, hlen⟩ := hsec sub j hrex hsub
            simp [henv, hex, hstrict, hrex, hsub, hn]
            intro hgt
            omega
  show genLoop jl doc wt resp 0 maxRetries = _
  rw [show maxRetries = 2 + 1 from rfl]
  unfold genLoop
  rw [hbody]

/-- Shared helper: the garbage candidate has no bracketed substring, so
the secondary-parse hypothesis holds vacuously. -/
theorem garbage_hsec (sub : String) (j : Json)
    (hrex : rexExtractArr "garbage" = some sub) (_hsub : jlGarbage sub = some j) :
    ∃ ns, normalizeSecondary j = some ns ∧ ns.length ≤ 2 := by
  rw [show rexExtractArr "garbage" = none from rfl] at hrex
  cases hrex

/-! ## Claim C1 -/

/-- Claim C1 is falsified as stated: on an unparseable candidate the
fallback graph is indeed returned, but for `feature_flow` (here, a
document without the api/integration keywords) that graph contains two
nodes of kind `end`, not exactly one. -/
theorem c1_counterexample :
    generateWorkflow jlGarbage "x" "feature_flow" respOk200 =
      .nodes genericFeatureFlow ∧
    countType genericFeatureFlow "end" = 2 ∧
    countType genericFeatureFlow "end" ≠ 1 :=
  ⟨by rfl, by rfl, by decide⟩

/-- Claim C1 (amended): whenever the 200-response candidate text fails the
strict parse and the bracketed-substring reparse fails or yields at most 2
nodes, `generate_workflow` does not raise for that reason: it returns the
fallback synthesizer graph for `(document_text, workflow_type)`, and that
graph has at least 5 nodes, exactly one `start` node and at least one
(not always exactly one) `end` node. -/
theorem c1_fallback_on_unusable (jl : String → Option Json)
    (doc wt t c : String) (env : Json) (resp : Nat → Attempt)
    (hr : resp 0 = ⟨200, t⟩)
    (henv : jl t = some env)
    (hex : extractContent env = .ok (some c))
    (hstrict : jl (fenceStrip c) = none)
    (hsec : ∀ sub j, rexExtractArr c = some sub → jl sub = some j →
        ∃ ns, normalizeSecondary j = some ns ∧ ns.length ≤ 2) :
    generateWorkflow jl doc wt resp = .nodes (createSmartFallbackWorkflow doc wt) ∧
    5 ≤ (createSmartFallbackWorkflow doc wt).length ∧
    countType (createSmartFallbackWorkflow doc wt) "start" = 1 ∧
    1 ≤ countType (createSmartFallbackWorkflow doc wt) "end" :=
  ⟨gen_unusable_fallback jl doc wt t c env resp hr henv hex hstrict hsec,
   fallback_stats doc wt⟩

/-- Closed instance of `c1_fallback_on_unusable` with every hypothesis
discharged at the garbage fixture. -/
theorem c1_fallback_on_unusable_witness :
    generateWorkflow jlGarbage "x" "feature_flow" respOk200 =
      .nodes (createSmartFallbackWorkflow "x" "feature_flow") ∧
    5 ≤ (createSmartFallbackWorkflow "x" "feature_flow").length ∧
    countType (createSmartFallbackWorkflow "x" "feature_flow") "start" = 1 ∧
    1 ≤ countType (createSmartFallbackWorkflow "x" "feature_flow") "end" :=
  c1_fallback_on_unusable jlGarbage "x" "feature_flow" "ENV" "garbage"
    (mkEnvelope "garbage") respOk200 (by rfl) (by rfl) (by rfl) (by rfl) garbage_hsec

/-! ## Claim C2 -/

/-- Claim C2: with workflow type `user_journey`, a document whose
lower-casing contains an e-commerce keyword, and an unparseable 200
candidate, the returned node list is exactly the 11-node e-commerce
reference graph with ids start, browse, select, cart, auth_check, login,
payment, success_check, retry, confirmation, end, in order. -/
theorem c2_ecommerce_end_to_end (jl : String → Option Json)
    (doc t c : String) (env : Json) (resp : Nat → Attempt)
    (hr : resp 0 = ⟨200, t⟩)
    (henv : jl t = some env)
    (hex : extractContent env = .ok (some c))
    (hkw : (strContains (pyLower doc) "e-commerce" || strContains (pyLower doc) "shopping"
        || strContains (pyLower doc) "cart") = true)
    (hstrict : jl (fenceStrip c) = none)
    (hsec : ∀ sub j, rexExtractArr c = some sub → jl sub = some j →
        ∃ ns, normalizeSecondary j = some ns ∧ ns.length ≤ 2) :
    generateWorkflow jl doc "user_journey" resp = .nodes ecommerceJourney ∧
    ecommerceJourney.map (fun n => n.id) =
      ["start", "browse", "select", "cart", "auth_check", "login", "payment",
       "success_check", "retry", "confirmation", "end"] ∧
    ecommerceJourney.length = 11 := by
  refine ⟨?_, rfl, rfl⟩
  have h := gen_unusable_fallback jl doc "user_journey" t c env resp
    hr henv hex hstrict hsec
  rw [h]
  unfold createSmartFallbackWorkflow smartFallbackCore
  rw [if_pos rfl, if_pos hkw]

/-- Closed instance of `c2_ecommerce_end_to_end` at the garbage fixture
with a document mentioning a shopping cart. -/
theorem c2_ecommerce_end_to_end_witness :
    generateWorkflow jlGarbage "Our e-commerce cart PRD" "user_journey" respOk200 =
      .nodes ecommerceJourney ∧
    ecommerceJourney.map (fun n => n.id) =
      ["start", "browse", "select", "cart", "auth_check", "login", "payment",
       "success_check", "retry", "confirmation", "end"] ∧
    ecommerceJourney.length = 11 :=
  c2_ecommerce_end_to_end jlGarbage "Our e-commerce cart PRD" "ENV" "garbage"
    (mkEnvelope "garbage") respOk200 (by rfl) (by rfl) (by rfl) (by rfl) (by rfl) garbage_hsec

/-! ## Claim C3 -/

/-- Claim C3 is falsified as stated: a strict-parse success of three plain
`process` nodes passes the only acceptance check (`len(nodes) > 2`) and is
returned to the caller although it contains no `start`-kind and no
`end`-kind node. -/
theorem c3_counterexample :
    generateWorkflow jlThreeProcess "doc" "user_journey" respOkE3 =
      .nodes threeProcessNodes ∧
    countType threeProcessNodes "start" = 0 ∧
    countType threeProcessNodes "end" = 0 :=
  ⟨by rfl, by rfl, by rfl⟩

/-- Claim C3 (amended): every node list `generate_workflow` returns has
strictly more than 2 nodes, and a strict-parse result with 2 or fewer
nodes is replaced by the fallback graph; but only fallback graphs are
guaranteed a `start` and an `end` node - normalizer output is accepted on
its size alone. -/
theorem c3_size_invariant :
    (∀ (jl : String → Option Json) (doc wt : String) (resp : Nat → Attempt)
        (ns : List WorkflowNode),
        generateWorkflow jl doc wt resp = .nodes ns → 2 < ns.length) ∧
    (∀ (jl : String → Option Json) (doc wt c : String) (j : Json)
        (ns : List WorkflowNode),
        jl (fenceStrip c) = some j → normalizePrimary j = some ns →
        ns.length ≤ 2 →
        processContent jl doc wt c = .ret (createSmartFallbackWorkflow doc wt)) ∧
    (∀ doc wt : String,
        1 ≤ countType (createSmartFallbackWorkflow doc wt) "start" ∧
        1 ≤ countType (createSmartFallbackWorkflow doc wt) "end") := by
  refine ⟨?_, ?_, ?_⟩
  · intro jl doc wt resp ns h
    exact genLoop_nodes_big jl doc wt resp maxRetries 0 ns h
  · intro jl doc wt c j ns hj hn hle
    unfold processContent
    rw [hj]
    show (match normalizePrimary j with
      | none => TryOut.caught (PyExc.other "TypeError")
      | some ns =>
          if 2 < ns.length then TryOut.ret ns
          else TryOut.ret (createSmartFallbackWorkflow doc wt)) = _
    rw [hn]
    exact if_neg (by omega)
  · intro doc wt
    have h := fallback_stats doc wt
    exact ⟨by omega, h.2.2⟩

/-- Closed instance of `c3_size_invariant`: its first component applied to
the concrete three-process-node run, its second to the same strict-parse
data with a too-small (empty) hypothesis shown inapplicable - here we
discharge the second component on a 2-node parse. -/
theorem c3_size_invariant_witness :
    2 < threeProcessNodes.length ∧
    processContent (fun s => if s = "N2" then some twoNodeArr else none)
      "doc" "user_journey" "N2" =
      .ret (createSmartFallbackWorkflow "doc" "user_journey") :=
  ⟨c3_size_invariant.1 jlThreeProcess "doc" "user_journey" respOkE3
      threeProcessNodes (by rfl),
   c3_size_invariant.2.1 (fun s => if s = "N2" then some twoNodeArr else none)
      "doc" "user_journey" "N2" twoNodeArr twoNodes (by rfl) (by rfl) (by decide)⟩

/-! ## Claim C4 -/

/-- Three 503s, then a response that would succeed: used to show that no
fourth attempt is consulted. -/
def resp503ThenOk : Nat → Attempt :=
  fun i => if i < 3 then ⟨503, ""⟩ else ⟨200, "ENV"⟩

/-- Claim C4 (code bug): three consecutive 503 responses exhaust the three
attempts with no fallback substituted, and a usable response at a fourth
index is never consulted (second conjunct) - but the final
`HTTPException(503, ...)` raised inside the `try` is caught by the blanket
`except Exception` of the same loop and re-raised as status 500 wrapping
`str(e)`: the caller sees status 500, not the 503 the claim (and the
source's own final `raise`) specifies. -/
theorem c4_three_503_surface :
    generateWorkflow (fun _ => none) "doc" "user_journey" resp503 =
      .raised 500 ("Workflow generation failed: 503: " ++ overloadedGenDetail) ∧
    generateWorkflow jlGarbage "doc" "user_journey" resp503ThenOk =
      .raised 500 ("Workflow generation failed: 503: " ++ overloadedGenDetail) ∧
    (generateWorkflow (fun _ => none) "doc" "user_journey" resp503).raisedStatus ≠
      some 503 := by
  refine ⟨by rfl, by rfl, ?_⟩
  rw [show (generateWorkflow (fun _ => none) "doc" "user_journey"
    resp503).raisedStatus = some 500 from by rfl]
  simp

/-! ## Claim C5 -/

/-- Claim C5 (code bug): a non-retryable upstream status is not handled as
the claim (and the source's own `raise HTTPException(response.status, ..)`)
intends.  In `generate_workflow` the raised `HTTPException(400, ...)` is
caught by the blanket `except Exception` and retried: with a 400 on the
first attempt and a usable 200 on the second, the call succeeds - a
further attempt is made.  In `analyze_document` no retry happens, but the
error reaches the caller carrying status 500 - the upstream status and
message survive only inside the wrapped detail text. -/
theorem c5_non_retryable_mishandled :
    generateWorkflow jlGarbage "cart" "user_journey" respRetryThenOk =
      .nodes ecommerceJourney ∧
    analyzeDocument (fun _ => none) (fun _ => ⟨400, "oops"⟩) =
      .raised 500
        "An unexpected error occurred during analysis: 400: Gemini API error: oops" :=
  ⟨by rfl, by rfl⟩

/-! ## Claim C6 -/

/-- A node whose single connection entry is a dict with an empty target. -/
def cex6Arr : Json :=
  .arr [
    .obj [("id", .str "a"), ("type", .str "process"), ("label", .str "A"),
          ("x", .num 1), ("y", .num 2),
          ("connections", .arr [.obj [("target", .str ""), ("label", .str "broken")]])],
    .obj [("id", .str "b"), ("type", .str "process"), ("label", .str "B"),
          ("x", .num 3), ("y", .num 4), ("connections", .arr [.str "c"])],
    .obj [("id", .str "c"), ("type", .str "process"), ("label", .str "C"),
          ("x", .num 5), ("y", .num 6), ("connections", .arr [])]]

/-- Claim C6 is falsified as stated: a dict connection entry whose
`target` is the empty string contributes nothing (the source keeps a
target only `if target:`), so the first node's connection list is `[]`,
not `[""]` as "contains exactly the target values" demands. -/
theorem c6_counterexample :
    normalizePrimary cex6Arr = some
      [⟨"a", "process", "A", 1, 2, []⟩,
       ⟨"b", "process", "B", 3, 4, ["c"]⟩,
       ⟨"c", "process", "C", 5, 6, []⟩] ∧
    normalizePrimary cex6Arr ≠ some
      [⟨"a", "process", "A", 1, 2, [""]⟩,
       ⟨"b", "process", "B", 3, 4, ["c"]⟩,
       ⟨"c", "process", "C", 5, 6, []⟩] :=
  ⟨by decide, by decide⟩

/-- Claim C6 (amended): for every AI response parsing to a JSON array of
3 or more well-formed node objects (id, type, label, x, y present, each
connection entry a dict with a string target or a bare string), the
normalizer preserves node count, ids and their order, and flattens each
node's entries to their targets: a dict entry contributes its target when
the target is non-empty (empty targets are dropped), a bare string
contributes itself, edge labels are discarded. -/
theorem c6_normalizer_preserves (l : List InNode) (_hlen : 3 ≤ l.length) :
    normalizePrimary (.arr (l.map InNode.toJson)) = some (l.map InNode.expected) ∧
    (l.map InNode.expected).length = l.length ∧
    (l.map InNode.expected).map (fun n => n.id) = l.map (fun n => n.id) := by
  refine ⟨normalizePrimary_structured l, by simp, ?_⟩
  simp [List.map_map, Function.comp_def, InNode.expected]

def c6WitnessList : List InNode :=
  [⟨"a", "start", "A", 1, 2, [.labeled "b" "go"]⟩,
   ⟨"b", "process", "B", 3, 4, [.bare "c", .labeled "" "dropped"]⟩,
   ⟨"c", "end", "C", 5, 6, []⟩]

/-- Closed instance of `c6_normalizer_preserves` at a concrete well-formed
three-node input. -/
theorem c6_normalizer_preserves_witness :
    3 ≤ c6WitnessList.length ∧
    (normalizePrimary (.arr (c6WitnessList.map InNode.toJson)) =
      some (c6WitnessList.map InNode.expected) ∧
    (c6WitnessList.map InNode.expected).length = c6WitnessList.length ∧
    (c6WitnessList.map InNode.expected).map (fun n => n.id) =
      c6WitnessList.map (fun n => n.id)) :=
  ⟨by decide, c6_normalizer_preserves c6WitnessList (by decide)⟩

/-! ## Claim C7 -/

/-- Claim C7: a parsed node object with all fields missing receives the
defaults `id = "node_<i>"`, `type = "process"`, `label = "Step <i+1>"`,
`y = 100`, and `x = 200 + i*300` on the strict-parse path but
`x = 100 + i*150` on the regex-extraction path - two different layouts
for the same index. -/
theorem c7_default_layout (i : Nat) :
    buildNode 200 300 i [] =
      some ⟨"node_" ++ toString i, "process", "Step " ++ toString (i + 1),
        200 + 300 * (i : Int), 100, []⟩ ∧
    buildNode 100 150 i [] =
      some ⟨"node_" ++ toString i, "process", "Step " ++ toString (i + 1),
        100 + 150 * (i : Int), 100, []⟩ ∧
    200 + 300 * (i : Int) ≠ 100 + 150 * (i : Int) :=
  ⟨by rfl, by rfl, by omega⟩

/-! ## Claim C8 -/

/-- Claim C8: when the strict parse of the (fence-stripped) analysis
candidate fails and the brace-delimited extract is absent or also fails to
parse, `analyze_document` returns exactly the single-key mapping
`{"raw_analysis": <candidate text>}` - no synthetic analysis, and the text
is not discarded. -/
theorem c8_raw_wrapper (jl : String → Option Json) (t c : String) (env : Json)
    (resp : Nat → Attempt)
    (hr : resp 0 = ⟨200, t⟩)
    (henv : jl t = some env)
    (hex : extractContent env = .ok (some c))
    (hstrict : jl (fenceStrip c) = none)
    (hsec : ∀ sub, rexExtractObj c = some sub → jl sub = none) :
    analyzeDocument jl resp = .result (.obj [("raw_analysis", .str c)]) := by
  have hbody : analyzeAttemptBody jl (resp 0) 0 =
      TryOutA.res (.obj [("raw_analysis", .str c)]) := by
    rw [hr]
    show analyzeAttemptBody jl ⟨200, t⟩ 0 = _
    unfold analyzeAttemptBody analyzeContentParse
    cases hrex : rexExtractObj c with
    | none => simp [henv, hex, hstrict, hrex]
    | some sub => simp [henv, hex, hstrict, hrex, hsec sub hrex]
  show analyzeLoop jl resp 0 maxRetries = _
  rw [show maxRetries = 2 + 1 from rfl]
  unfold analyzeLoop
  rw [hbody]

/-- Closed instance of `c8_raw_wrapper` at the garbage fixture. -/
theorem c8_raw_wrapper_witness :
    analyzeDocument jlGarbage respOk200 =
      .result (.obj [("raw_analysis", .str "garbage")]) :=
  c8_raw_wrapper jlGarbage "ENV" "garbage" (mkEnvelope "garbage") respOk200
    (by rfl) (by rfl) (by rfl) (by rfl)
    (fun sub hrex => by
      rw [show rexExtractObj "garbage" = none from by rfl] at hrex
      cases hrex)

/-! ## Claim C9 -/

/-- Claim C9: the fallback synthesizer is a pure function that reads the
document text only through its lower-casing, so texts equal up to letter
case (such as "Shopping Cart" and "SHOPPING CART") select the identical
graph for the same workflow kind; two calls on identical arguments are
trivially identical (purity of the embedding). -/
theorem c9_case_insensitive (ca cb wt : String) (h : pyLower ca = pyLower cb) :
    createSmartFallbackWorkflow ca wt = createSmartFallbackWorkflow cb wt ∧
    createSmartFallbackWorkflow ca wt = createSmartFallbackWorkflow ca wt := by
  unfold createSmartFallbackWorkflow
  rw [h]
  exact ⟨rfl, rfl⟩

/-- Closed instance of `c9_case_insensitive` at the claim's example pair. -/
theorem c9_case_insensitive_witness :
    pyLower "Shopping Cart" = pyLower "SHOPPING CART" ∧
    createSmartFallbackWorkflow "Shopping Cart" "user_journey" =
      createSmartFallbackWorkflow "SHOPPING CART" "user_journey" :=
  ⟨by rfl,
   (c9_case_insensitive "Shopping Cart" "SHOPPING CART" "user_journey" (by rfl)).1⟩

/-! ## Claim C10 -/

/-- Claim C10: every graph the fallback synthesizer can return is
connection-closed - each target id in any node's connection list is the id
of some node of the same returned list. -/
theorem c10_connection_closed (c wt : String) :
    connectionClosed (createSmartFallbackWorkflow c wt) = true := by
  have h := smartFallbackCore_cases (pyLower c) wt
  unfold createSmartFallbackWorkflow
  rcases h with h | h | h | h | h | h | h | h <;> rw [h] <;> decide

end PRDBackend
